import Mathlib

/-!
Verification development for the web-automation core of the repository
(`src/agents/web_agent.py`, `src/agents/openai_codex_agent.py`).

Each Python function the claims touch is shallowly embedded as an executable
Lean definition.  External effects (the browser collaborator, timers, the DOM)
are supplied through explicit environment records: one record field per
observable outcome of an awaited collaborator call, read in the same order as
the source reads it.  Exceptions become explicit control flow, exactly where
the source has `try`/`except`.
-/

namespace SimulatedDev

/-! ## Configuration constants (`web_agent.py`, class `WebAutomationConfig`) -/

namespace WebAutomationConfig

def DEFAULT_TIMEOUT : Nat := 30000

def SHORT_TIMEOUT : Nat := 10000

def LONG_TIMEOUT : Nat := 60000

def RETRY_COUNT : Nat := 3

def RETRY_DELAY : Nat := 2000

def ELEMENT_STABILITY_TIMEOUT : Nat := 1000

end WebAutomationConfig

/-- Python `max_retries = max_retries or self.config.RETRY_COUNT`: `or` takes
the default both when the argument is absent (`None`) and when it is falsy
(`0`). -/
def pyOrDefault (m : Option Nat) (d : Nat) : Nat :=
  match m with
  | none => d
  | some k => if k = 0 then d else k

/-! ## Interaction events

Observable interactions performed against the page.  `primaryClick` is
`element.click()`, `jsClick` is the `element.evaluate("element => element.click()")`
fallback, `fillText` is `element.fill(text)`, `retryDelay` is
`page.wait_for_timeout(RETRY_DELAY)` between attempts. -/

inductive InteractionEvent where
  | primaryClick
  | jsClick
  | fillText
  | retryDelay
deriving DecidableEq, Repr

/-! ## `_robust_click_element` (`web_agent.py` lines 525-562) -/

/-- What one click attempt observes from the browser: whether `self.page` is
set, whether `wait_for_selector(state="visible")` returns without raising,
whether `query_selector` finds the element, the element's visibility and
enabledness, and whether `element.click()` raises. -/
structure ClickAttemptEnv where
  pageAvailable : Bool
  waitSelectorOk : Bool
  elementFound : Bool
  visible : Bool
  enabled : Bool
  clickRaises : Bool
deriving DecidableEq, Repr

/-- One iteration of the `for attempt in range(max_retries)` body of
`_robust_click_element`: returns whether the attempt returned `True`, and the
page interactions it performed.  Every `raise`/propagated exception lands in
the iteration's `except`, i.e. yields `false` here. -/
def clickAttemptOnce (e : ClickAttemptEnv) : Bool × List InteractionEvent :=
  if e.pageAvailable = false then (false, [])
  else if e.waitSelectorOk = false then (false, [])
  else if e.elementFound = false then (false, [])
  else if e.visible && e.enabled then
    -- scroll_into_view_if_needed, stability wait, then element.click()
    if e.clickRaises then (false, [InteractionEvent.primaryClick])
    else (true, [InteractionEvent.primaryClick])
  else (false, [])

/-- The retry loop of `_robust_click_element`.  `remaining` is the number of
loop iterations still allowed (`max_retries - attempt`); `attempt` is the
current Python loop index.  On a failed attempt the source waits `RETRY_DELAY`
and continues only when `attempt < max_retries - 1 and self.page`; otherwise it
returns `False`.  Result: (returned value, number of attempts executed,
interaction events in order). -/
def robustClickGo (env : Nat → ClickAttemptEnv) :
    Nat → Nat → Bool × Nat × List InteractionEvent
  | 0, attempt => (false, attempt, [])
  | remaining + 1, attempt =>
    if (clickAttemptOnce (env attempt)).1 then
      (true, attempt + 1, (clickAttemptOnce (env attempt)).2)
    else if 0 < remaining ∧ (env attempt).pageAvailable = true then
      ((robustClickGo env remaining (attempt + 1)).1,
       (robustClickGo env remaining (attempt + 1)).2.1,
       (clickAttemptOnce (env attempt)).2 ++
         InteractionEvent.retryDelay :: (robustClickGo env remaining (attempt + 1)).2.2)
    else (false, attempt + 1, (clickAttemptOnce (env attempt)).2)

/-- `_robust_click_element(selector, description, max_retries)`. -/
def robustClickElement (env : Nat → ClickAttemptEnv) (maxRetries : Option Nat) :
    Bool × Nat × List InteractionEvent :=
  robustClickGo env (pyOrDefault maxRetries WebAutomationConfig.RETRY_COUNT) 0

/-! ## `_robust_fill_input` (`web_agent.py` lines 564-608) -/

/-- What one fill attempt observes: page/wait/element lookup as for clicks,
the element's actionability, whether `element.fill(text)` raises, and the
value `input_value()` reads back after the fill. -/
structure FillAttemptEnv where
  pageAvailable : Bool
  waitSelectorOk : Bool
  elementFound : Bool
  visible : Bool
  enabled : Bool
  fillRaises : Bool
  readBack : String
deriving DecidableEq, Repr

/-- One iteration of the `_robust_fill_input` loop body: focus, select-all +
Delete, `fill(text)`, then read `input_value()` and compare to `text`; a
mismatch raises (verification failure), so the attempt yields `false`. -/
def fillAttemptOnce (e : FillAttemptEnv) (text : String) : Bool × List InteractionEvent :=
  if e.pageAvailable = false then (false, [])
  else if e.waitSelectorOk = false then (false, [])
  else if e.elementFound = false then (false, [])
  else if e.visible && e.enabled then
    -- focus, select_text, keyboard.press Delete, then element.fill(text)
    if e.fillRaises then (false, [InteractionEvent.fillText])
    else if e.readBack = text then (true, [InteractionEvent.fillText])
    else (false, [InteractionEvent.fillText])
  else (false, [])

/-- The retry loop of `_robust_fill_input`, same loop shape as
`robustClickGo`. -/
def robustFillGo (env : Nat → FillAttemptEnv) (text : String) :
    Nat → Nat → Bool × Nat × List InteractionEvent
  | 0, attempt => (false, attempt, [])
  | remaining + 1, attempt =>
    if (fillAttemptOnce (env attempt) text).1 then
      (true, attempt + 1, (fillAttemptOnce (env attempt) text).2)
    else if 0 < remaining ∧ (env attempt).pageAvailable = true then
      ((robustFillGo env text remaining (attempt + 1)).1,
       (robustFillGo env text remaining (attempt + 1)).2.1,
       (fillAttemptOnce (env attempt) text).2 ++
         InteractionEvent.retryDelay :: (robustFillGo env text remaining (attempt + 1)).2.2)
    else (false, attempt + 1, (fillAttemptOnce (env attempt) text).2)

/-- `_robust_fill_input(selector, text, max_retries)`. -/
def robustFillInput (env : Nat → FillAttemptEnv) (text : String) (maxRetries : Option Nat) :
    Bool × Nat × List InteractionEvent :=
  robustFillGo env text (pyOrDefault maxRetries WebAutomationConfig.RETRY_COUNT) 0

/-- An attempt against an element that is present but never actionable: the
page is alive, the visibility wait and the element lookup succeed, but the
element is never both visible and enabled. -/
def clickNeverActionable (e : ClickAttemptEnv) : Prop :=
  e.pageAvailable = true ∧ e.waitSelectorOk = true ∧ e.elementFound = true ∧
    (e.visible && e.enabled) = false

/-- Same non-actionability condition for fill attempts. -/
def fillNeverActionable (e : FillAttemptEnv) : Prop :=
  e.pageAvailable = true ∧ e.waitSelectorOk = true ∧ e.elementFound = true ∧
    (e.visible && e.enabled) = false

/-- A fully actionable attempt whose read-back matches the intended text. -/
def fillAttemptGood (e : FillAttemptEnv) (text : String) : Prop :=
  e.pageAvailable = true ∧ e.waitSelectorOk = true ∧ e.elementFound = true ∧
    e.visible = true ∧ e.enabled = true ∧ e.fillRaises = false ∧ e.readBack = text

/-- A fully actionable attempt whose read-back differs from the intended
text. -/
def fillAttemptMismatch (e : FillAttemptEnv) (text : String) : Prop :=
  e.pageAvailable = true ∧ e.waitSelectorOk = true ∧ e.elementFound = true ∧
    e.visible = true ∧ e.enabled = true ∧ e.fillRaises = false ∧ e.readBack ≠ text

/-! ## `_scroll_and_click` (`openai_codex_agent.py` lines 473-493) -/

/-- What `_scroll_and_click` observes about its element: actionability after
scrolling, and whether `element.click()` raises.  (Whether the JavaScript
fallback click itself raises only changes which message is printed: the outer
`except` swallows it.) -/
structure ScrollClickEnv where
  visible : Bool
  enabled : Bool
  clickRaises : Bool
deriving DecidableEq, Repr

/-- `_scroll_and_click(element, description)`: scroll into view, stability
wait, then if the element is visible and enabled try `element.click()`, and
on a raise fall back to the JavaScript `element.evaluate` click; a
non-actionable element raises into the outer `except` (logged, no events).
The method returns nothing; the value is its interaction-event trace. -/
def scrollAndClick (e : ScrollClickEnv) : List InteractionEvent :=
  if e.visible && e.enabled then
    if e.clickRaises then [InteractionEvent.primaryClick, InteractionEvent.jsClick]
    else [InteractionEvent.primaryClick]
  else []

/-! ## `_monitor_output_changes` (`web_agent.py` lines 681-721)

The poll loop runs while `(now - start) < timeout_ms` and each iteration ends
with a 5000 ms wait, so the i-th iteration reads the output region at elapsed
time `5000 * i`.  `content i` is the text the i-th read observes (an absent
output element reads as `""`, like the source's `current_content = ""`).
The model keeps the source's state: `lastContent` / `lastChange` are
`last_content` / `last_change_time` (elapsed ms).  The tiny real-time drift
between the two `time.time()` reads inside one iteration is dropped: both
reads happen at the iteration's poll instant. -/

/-- The loop of `_monitor_output_changes` with an explicit iteration budget.
`.ok k` means the loop returned at iteration `k` ("content stable");
`.error s` is `raise AgentTimeoutException(..., s, ...)` with `s` the timeout
in seconds.  The budget only has to dominate `timeoutMs / 5000` iterations;
past that the time guard is false and the result no longer depends on it. -/
def monitorGo (content : Nat → String) (timeoutMs : Nat) :
    Nat → Nat → String → Nat → Except Nat Nat
  | 0, _, _, _ => Except.error (timeoutMs / 1000)
  | fuel + 1, i, lastContent, lastChange =>
    if 5000 * i < timeoutMs then
      -- read current_content, update last_content / last_change_time
      if 10000 ≤ 5000 * i - (if content i ≠ lastContent then 5000 * i else lastChange) ∧
          100 < (content i).length then
        Except.ok i
      else
        monitorGo content timeoutMs fuel (i + 1) (content i)
          (if content i ≠ lastContent then 5000 * i else lastChange)
    else Except.error (timeoutMs / 1000)

/-- `_monitor_output_changes(timeout_ms)`: start at iteration 0 with
`last_content = ""` and `last_change_time = start_time`. -/
def monitorOutputChanges (content : Nat → String) (timeoutMs : Nat) : Except Nat Nat :=
  monitorGo content timeoutMs (timeoutMs / 5000 + 1) 0 "" 0

/-- A concrete output trace: constant 101-character content from the first
poll on. -/
def stableContent101 : Nat → String := fun _ => String.mk (List.replicate 101 'x')

/-! ## `_wait_for_web_completion` (`web_agent.py` lines 323-349) -/

/-- What `_wait_for_web_completion` observes: whether `self.loading_selector`
is defined (and the page set), whether the
`wait_for_selector(state="hidden")` wait on it returns within the long
timeout (absence of the indicator satisfies `hidden` immediately), and the
output-region content trace used by the fallback monitor. -/
structure WebCompletionEnv where
  hasLoadingSelector : Bool
  loadingHiddenWithinTimeout : Bool
  content : Nat → String
  timeoutMs : Nat

/-- `_wait_for_web_completion`: if the loading-indicator wait succeeds the
method returns (completion declared); if it raises, the exception is caught
("trying alternative methods") and `_monitor_output_changes` runs; an
`AgentTimeoutException` from the monitor is re-raised, any other error is
swallowed ("assuming done"). -/
def waitForWebCompletion (e : WebCompletionEnv) : Except Nat Unit :=
  if e.hasLoadingSelector && e.loadingHiddenWithinTimeout then Except.ok ()
  else
    match monitorOutputChanges e.content e.timeoutMs with
    | Except.ok _ => Except.ok ()
    | Except.error s => Except.error s

/-! ## `_wait_for_completion` (`openai_codex_agent.py` lines 404-429) -/

/-- The busy indicator's observable behavior: whether the stop button appears
within the 30000 ms short wait, and (when it appeared) whether it transitions
to hidden within the 1200000 ms long wait. -/
structure IndicatorEnv where
  appearsWithinShort : Bool
  hidesWithinLong : Bool
deriving DecidableEq, Repr

/-- How the codex completion wait ended. -/
inductive CompletionOutcome where
  | immediateNoIndicator
  | completedAtHide
  | proceededAfterTimeout
deriving DecidableEq, Repr

/-- The body of the `try` in `_wait_for_completion`: the appear-wait is the
non-raising `_wait_for_element_robust`; the hide-wait raises on timeout. -/
def codexWaitForCompletionInner (e : IndicatorEnv) : Except String CompletionOutcome :=
  if e.appearsWithinShort then
    if e.hidesWithinLong then Except.ok CompletionOutcome.completedAtHide
    else Except.error "Timeout 1200000ms exceeded"
  else Except.ok CompletionOutcome.immediateNoIndicator

/-- `_wait_for_completion`: the `except` catches every error from the hide
wait, prints a warning, and execution continues (then a final 2000 ms wait).
The method never propagates an error. -/
def codexWaitForCompletion (e : IndicatorEnv) : CompletionOutcome :=
  match codexWaitForCompletionInner e with
  | Except.ok o => o
  | Except.error _ => CompletionOutcome.proceededAfterTimeout

/-! ## `_extract_repo_name` (`openai_codex_agent.py` lines 292-304)

`re.search(r"github\.com[/:]([\w\-\.]+)/([\w\-\.]+?)(?:\.git)?/?$", url)`.
The search scans left to right for an occurrence of the literal `github.com`
whose continuation matches the rest of the pattern.  Group 1 is a greedy run
of word-like characters; since `/` is not word-like, no backtracking into
group 1 is possible and it is exactly the maximal run.  Group 2 is lazy: the
shortest non-empty word-like run after which the remaining input is consumed
by `(?:\.git)?/?$`.  (`$` before a final newline and non-ASCII `\w` members
do not arise for repository URLs and are not modelled.) -/

/-- The character class `[\w\-\.]` over ASCII. -/
def isWordLike (c : Char) : Bool :=
  c.isAlphanum || c = '_' || c = '-' || c = '.'

/-- Does `pat` occur at the head of `l`? -/
def startsList : List Char → List Char → Bool
  | [], _ => true
  | _ :: _, [] => false
  | p :: ps, c :: cs => p = c && startsList ps cs

/-- Does `pat` occur anywhere in `l`? -/
def containsList (pat : List Char) : List Char → Bool
  | [] => startsList pat []
  | c :: cs => startsList pat (c :: cs) || containsList pat cs

/-- The literal the regex must find. -/
def ghChars : List Char := "github.com".toList

/-- Maximal run of word-like characters at the head. -/
def takeWordRun : List Char → List Char
  | [] => []
  | c :: cs => if isWordLike c then c :: takeWordRun cs else []

/-- What remains after `takeWordRun`. -/
def dropWordRun : List Char → List Char
  | [] => []
  | c :: cs => if isWordLike c then dropWordRun cs else c :: cs

/-- Can `(?:\.git)?/?$` consume `l` entirely? -/
def tailEndsOk (l : List Char) : Bool :=
  decide (l = [] ∨ l = ['/'] ∨ l = ['.', 'g', 'i', 't'] ∨ l = ['.', 'g', 'i', 't', '/'])

/-- Lazy group 2: the shortest non-empty word-like run after which the rest
of the input is `(?:\.git)?/?$`-consumable. -/
def lazyRepo : List Char → Option (List Char)
  | [] => none
  | c :: cs =>
    if isWordLike c then
      if tailEndsOk cs then some [c]
      else (lazyRepo cs).map (fun repo => c :: repo)
    else none

/-- Match `([\w\-\.]+)/([\w\-\.]+?)(?:\.git)?/?$` against `l`. -/
def matchOwnerRepo (l : List Char) : Option (List Char × List Char) :=
  if takeWordRun l = [] then none
  else
    match dropWordRun l with
    | '/' :: rest => (lazyRepo rest).map (fun repo => (takeWordRun l, repo))
    | _ => none

/-- Match the whole pattern starting exactly at the head of `l`. -/
def tryMatchAt (l : List Char) : Option (List Char × List Char) :=
  if startsList ghChars l then
    match l.drop ghChars.length with
    | sep :: rest => if sep = '/' || sep = ':' then matchOwnerRepo rest else none
    | [] => none
  else none

/-- `re.search`: try each start position left to right. -/
def extractFrom : List Char → Option (List Char × List Char)
  | [] => none
  | c :: cs =>
    match tryMatchAt (c :: cs) with
    | some pr => some pr
    | none => extractFrom cs

/-- `_extract_repo_name(repo_url)`: empty input short-circuits to `""`; a
match yields `f"{username}/{repo_name}"`; no match yields `""`. -/
def extractRepoName (repoUrl : String) : String :=
  if repoUrl = "" then ""
  else
    match extractFrom repoUrl.toList with
    | some pr => String.mk pr.1 ++ "/" ++ String.mk pr.2
    | none => ""

/-! ## `_find_and_select_existing_environment` (`openai_codex_agent.py` lines 222-243)

The method formats `tr.group\/row:has-text('{repo_name}')` and waits for it
via `_get_element_robust`.  Playwright's `has-text` filter matches an element
whose text contains the needle as a substring (so an empty needle matches
every row).  `rows` is the text of each `tr.group/row` in the environments
table, in document order. -/

/-- Playwright `:has-text(needle)` on one row (substring containment; the
engine's case folding does not matter for the needles proved about here). -/
def hasTextMatch (needle rowText : String) : Bool :=
  containsList needle.toList rowText.toList

/-- Outcomes of the two `_robust_click_element` calls the method makes. -/
structure SelectEnv where
  clickRowOk : Bool
  clickUseThisOk : Bool
deriving DecidableEq, Repr

/-- `_find_and_select_existing_environment(repo_name)`: if some row matches
the formatted selector, click it, wait 2000 ms, then click "Use this";
otherwise return `False`. -/
def findAndSelectExistingEnvironment (repoName : String) (rows : List String)
    (e : SelectEnv) : Bool :=
  if rows.any (fun row => hasTextMatch repoName row) then
    if e.clickRowOk then e.clickUseThisOk else false
  else false

/-! ## Browser lifecycle (`web_agent.py` lines 177-251)

The `WebAgent` instance attributes that the lifecycle methods mutate.  A
`true` handle field means the attribute is not `None` (a live resource). -/

structure BrowserState where
  client : Bool
  browser : Bool
  page : Bool
  ready : Bool
deriving DecidableEq, Repr

/-- Whether each `await ....close()` inside `_cleanup_browser` returns without
raising. -/
structure CleanupEnv where
  pageCloseOk : Bool
  browserCloseOk : Bool
  clientCloseOk : Bool
deriving DecidableEq, Repr

/-- The environment in which every teardown call succeeds. -/
def allCloseOk : CleanupEnv := ⟨true, true, true⟩

/-- Teardown calls `_cleanup_browser` issues (the `await` happened, whether or
not it raised). -/
inductive CloseEvent where
  | pageClosed
  | browserClosed
  | clientClosed
deriving DecidableEq, Repr

/-- The `if self.botright_client: await close; self.botright_client = None`
tail of `_cleanup_browser`. -/
def cleanupClientStep (s : BrowserState) (e : CleanupEnv) : BrowserState × List CloseEvent :=
  if s.client then
    if e.clientCloseOk then ({ s with client := false }, [CloseEvent.clientClosed])
    else (s, [CloseEvent.clientClosed])
  else (s, [])

/-- The browser-then-client tail of `_cleanup_browser`.  A raise from
`browser.close()` jumps to the `except`, so the client close never runs and
`self.browser` keeps its value. -/
def cleanupBrowserStep (s : BrowserState) (e : CleanupEnv) : BrowserState × List CloseEvent :=
  if s.browser then
    if e.browserCloseOk then
      ((cleanupClientStep { s with browser := false } e).1,
       CloseEvent.browserClosed :: (cleanupClientStep { s with browser := false } e).2)
    else (s, [CloseEvent.browserClosed])
  else cleanupClientStep s e

/-- `_cleanup_browser` (lines 233-251): clear `_is_browser_ready` first, then
close page, browser, client in order, nulling each attribute after its close
returns; the surrounding `try`/`except` swallows the first raise, leaving the
remaining attributes untouched.  The method itself never raises. -/
def cleanupBrowser (s : BrowserState) (e : CleanupEnv) : BrowserState × List CloseEvent :=
  if ({ s with ready := false } : BrowserState).page then
    if e.pageCloseOk then
      ((cleanupBrowserStep { s with ready := false, page := false } e).1,
       CloseEvent.pageClosed :: (cleanupBrowserStep { s with ready := false, page := false } e).2)
    else ({ s with ready := false }, [CloseEvent.pageClosed])
  else cleanupBrowserStep { s with ready := false } e

/-- `close_coding_interface` (lines 223-231): run `_cleanup_browser` and
return `True`; since `_cleanup_browser` cannot raise, the `except`/`False`
branch is unreachable. -/
def closeCodingInterface (s : BrowserState) (e : CleanupEnv) :
    Bool × BrowserState × List CloseEvent :=
  (true, (cleanupBrowser s e).1, (cleanupBrowser s e).2)

/-- What `open_coding_interface` observes: whether the client/browser/page
construction and timeout configuration complete without raising, whether
`_robust_navigate` returns `True`, and whether `_setup_web_interface`
returns `True` (both of those catch their own errors and return `False`
rather than raising). -/
structure OpenEnv where
  createOk : Bool
  navOk : Bool
  setupOk : Bool
deriving DecidableEq, Repr

/-- `open_coding_interface` (lines 177-221).  Creation makes all three
handles live.  A navigation failure or a setup failure is a plain
`return False` with no teardown.  Only a raise inside the `try` reaches the
`except`, which runs `_cleanup_browser` and returns `False` (the model
abstracts which handles the aborted creation had already set by cleaning the
entry state; with benign closes the result is all-cleared either way). -/
def openCodingInterface (s : BrowserState) (e : OpenEnv) (ce : CleanupEnv) :
    Bool × BrowserState :=
  if e.createOk then
    if e.navOk then
      if e.setupOk then
        (true, { client := true, browser := true, page := true, ready := true })
      else
        (false, { client := true, browser := true, page := true, ready := s.ready })
    else
      (false, { client := true, browser := true, page := true, ready := s.ready })
  else
    (false, (cleanupBrowser s ce).1)

/-! ## Setup and prompt execution

`AgentResponse` comes from `agents/base.py`, which is outside `src/`;
its shape (content, success flag, optional error message) is taken from how
the two agents construct it. -/

structure AgentResponse where
  content : String
  success : Bool
  errorMessage : Option String
deriving DecidableEq, Repr

/-- `_setup_web_interface` of `OpenAICodexAgent` (lines 80-98): `False` as
soon as `_handle_authentication` or `_handle_environments_page` reports
failure, `True` only when both succeed (a raise also yields `False`). -/
def codexSetupWebInterface (authOk envPageOk : Bool) : Bool :=
  authOk && envPageOk

/-- Python truthiness of the optional strings the agents branch on
(`if output_content:` / `if pr_url:`): `None` and `""` are falsy. -/
def truthy : Option String → Bool
  | none => false
  | some s => decide (s ≠ "")

/-- The `"=" * 50` separator bar. -/
def eqBar : String := String.mk (List.replicate 50 '=')

/-- The `response_parts` list built in `OpenAICodexAgent.execute_prompt`
(lines 115-125), before the status message is prepended. -/
def codexResponseParts (output pr : Option String) : List String :=
  (if truthy output then ["AGENT OUTPUT:", eqBar, output.getD "", eqBar] else []) ++
    (if truthy pr then ["PR created: " ++ pr.getD ""] else [])

/-- The status message (lines 124-130). -/
def codexStatusMessage (output pr : Option String) : String :=
  if truthy pr then "Task completed successfully with output and PR created."
  else if truthy output then "Task completed successfully with output generated."
  else "Task completed but no output or PR captured."

/-- The final response content (lines 132-136): the status message alone, or
prepended to the parts and joined with blank lines. -/
def codexFinalContent (output pr : Option String) : String :=
  if (codexResponseParts output pr).isEmpty then codexStatusMessage output pr
  else
    String.intercalate "\n\n"
      (codexStatusMessage output pr :: codexResponseParts output pr)

/-- What one run of `OpenAICodexAgent.execute_prompt` observes from the
collaborators: whether `_robust_fill_input` on the prompt field and
`_robust_click_element` on the Code button return `True` (each is the whole
retry loop, modelled in isolation above), whether `_open_created_task` finds
the task link, the indicator behavior for `_wait_for_completion`, and the
results of the best-effort extractions `_extract_output_content` /
`_extract_pr_url` (both catch their own errors and return `None`;
`_try_create_pr` swallows everything and returns nothing). -/
structure CodexExecEnv where
  fillOk : Bool
  clickCodeOk : Bool
  taskFound : Bool
  indicator : IndicatorEnv
  output : Option String
  pr : Option String

/-- `OpenAICodexAgent.execute_prompt` (lines 100-141).  There is no
browser-ready check: `_send_prompt` runs immediately.  A dead page makes the
fill's retry loop return `False` at once, so the fill succeeds only when the
page is live and the environment fills.  The events record the successful
prompt fill and the successful Code-button click (the submission). -/
def codexExecutePrompt (s : BrowserState) (e : CodexExecEnv) :
    AgentResponse × List InteractionEvent :=
  if s.page && e.fillOk then
    if e.clickCodeOk then
      if e.taskFound then
        -- _complete_task_and_get_pr: focus chat, wait for completion (never
        -- raises), then the three best-effort steps
        (⟨codexFinalContent e.output e.pr, true, none⟩,
         [InteractionEvent.fillText, InteractionEvent.primaryClick])
      else
        (⟨"", false, some "Failed to open task"⟩,
         [InteractionEvent.fillText, InteractionEvent.primaryClick])
    else
      (⟨"", false, some "Failed to click Code button"⟩, [InteractionEvent.fillText])
  else
    (⟨"", false, some "Failed to fill prompt input"⟩, [])

/-- What one run of `WebAgent.execute_prompt` observes: fill/click outcomes
for `_send_prompt_to_web_interface`, the completion environment, and the
output file contents `_read_output_file` returns. -/
structure WebExecEnv where
  fillOk : Bool
  clickSubmitOk : Bool
  completion : WebCompletionEnv
  fileContent : String

/-- `WebAgent.execute_prompt` (lines 276-303): the guard
`if not self._is_browser_ready or not self.page: raise` turns into a failed
`AgentResponse` via the method's `except`, before any interaction.  After a
successful send, a timeout raised by `_wait_for_web_completion` is also
caught into a failed response. -/
def webExecutePrompt (s : BrowserState) (e : WebExecEnv) :
    AgentResponse × List InteractionEvent :=
  if s.ready && s.page then
    if e.fillOk then
      if e.clickSubmitOk then
        match waitForWebCompletion e.completion with
        | Except.ok _ =>
          (⟨e.fileContent, true, none⟩,
           [InteractionEvent.fillText, InteractionEvent.primaryClick])
        | Except.error _ =>
          (⟨"", false, some "Failed to execute prompt: web agent processing timed out"⟩,
           [InteractionEvent.fillText, InteractionEvent.primaryClick])
      else
        (⟨"", false, some "Failed to execute prompt: Failed to click submit button"⟩,
         [InteractionEvent.fillText])
    else
      (⟨"", false, some "Failed to execute prompt: Failed to fill input field"⟩, [])
  else
    (⟨"", false, some "Failed to execute prompt: Browser not ready. Call open_coding_interface() first."⟩,
     [])

/-! ## Helper lemmas -/

/-- A never-actionable click attempt fails with no page interaction. -/
lemma clickAttemptOnce_notActionable {e : ClickAttemptEnv}
    (h : clickNeverActionable e) : clickAttemptOnce e = (false, []) := by
  obtain ⟨h1, h2, h3, h4⟩ := h
  simp [clickAttemptOnce, h1, h2, h3, h4]

/-- A never-actionable fill attempt fails with no page interaction. -/
lemma fillAttemptOnce_notActionable {e : FillAttemptEnv} {text : String}
    (h : fillNeverActionable e) : fillAttemptOnce e text = (false, []) := by
  obtain ⟨h1, h2, h3, h4⟩ := h
  simp [fillAttemptOnce, h1, h2, h3, h4]

/-- Exhaustion of the click retry loop against never-actionable attempts:
every iteration runs, separated by exactly one retry delay each. -/
lemma robustClickGo_neverActionable (env : Nat → ClickAttemptEnv)
    (h : ∀ i, clickNeverActionable (env i)) :
    ∀ r a, robustClickGo env (r + 1) a =
      (false, a + (r + 1), List.replicate r InteractionEvent.retryDelay) := by
  intro r
  induction r with
  | zero =>
    intro a
    simp [robustClickGo, clickAttemptOnce_notActionable (h a)]
  | succ r ih =>
    intro a
    have hc := clickAttemptOnce_notActionable (h a)
    have hp := (h a).1
    rw [robustClickGo]
    rw [if_neg (by simp [hc]), if_pos ⟨Nat.succ_pos r, hp⟩, ih (a + 1)]
    simp [hc, List.replicate_succ, Prod.ext_iff]
    omega

/-- Exhaustion of the fill retry loop against never-actionable attempts. -/
lemma robustFillGo_neverActionable (env : Nat → FillAttemptEnv) (text : String)
    (h : ∀ i, fillNeverActionable (env i)) :
    ∀ r a, robustFillGo env text (r + 1) a =
      (false, a + (r + 1), List.replicate r InteractionEvent.retryDelay) := by
  intro r
  induction r with
  | zero =>
    intro a
    simp [robustFillGo, @fillAttemptOnce_notActionable (env a) text (h a)]
  | succ r ih =>
    intro a
    have hc := @fillAttemptOnce_notActionable (env a) text (h a)
    have hp := (h a).1
    rw [robustFillGo]
    rw [if_neg (by simp [hc]), if_pos ⟨Nat.succ_pos r, hp⟩, ih (a + 1)]
    simp [hc, List.replicate_succ, Prod.ext_iff]
    omega

/-- With `1 ≤ n` explicit retries, the Python `or` default does not fire. -/
lemma pyOrDefault_some {n d : Nat} (hn : 1 ≤ n) : pyOrDefault (some n) d = n := by
  have : n ≠ 0 := by omega
  simp [pyOrDefault, this]

/-- A fill attempt only returns `True` when the read-back equals the intended
text. -/
lemma fillAttemptOnce_readBack {e : FillAttemptEnv} {text : String}
    (h : (fillAttemptOnce e text).1 = true) : e.readBack = text := by
  by_cases hrb : e.readBack = text
  · exact hrb
  · exfalso
    obtain ⟨p, w, f, v, en, fr, rb⟩ := e
    cases p <;> cases w <;> cases f <;> cases v <;> cases en <;> cases fr <;>
      simp_all [fillAttemptOnce]

lemma fillAttemptOnce_good {e : FillAttemptEnv} {text : String}
    (h : fillAttemptGood e text) :
    fillAttemptOnce e text = (true, [InteractionEvent.fillText]) := by
  obtain ⟨h1, h2, h3, h4, h5, h6, h7⟩ := h
  simp [fillAttemptOnce, h1, h2, h3, h4, h5, h6, h7]

lemma fillAttemptOnce_mismatch {e : FillAttemptEnv} {text : String}
    (h : fillAttemptMismatch e text) :
    fillAttemptOnce e text = (false, [InteractionEvent.fillText]) := by
  obtain ⟨h1, h2, h3, h4, h5, h6, h7⟩ := h
  simp [fillAttemptOnce, h1, h2, h3, h4, h5, h6, h7]

/-- The fill loop's attempt counter moves past the starting index whenever at
least one iteration is allowed. -/
lemma robustFillGo_used_lower (env : Nat → FillAttemptEnv) (text : String) :
    ∀ r a, 1 ≤ r → a + 1 ≤ (robustFillGo env text r a).2.1 := by
  intro r
  induction r with
  | zero => intro a h; omega
  | succ r ih =>
    intro a _
    simp only [robustFillGo]
    split
    · simp
    · split
      · rename_i hcond
        have hrec := ih (a + 1) hcond.1
        have hgoal : a + 1 ≤ (robustFillGo env text r (a + 1)).2.1 := by omega
        exact hgoal
      · simp

/-- If the fill loop returns `True`, the attempt it succeeded on (index
`used - 1`) read back exactly the intended text. -/
lemma robustFillGo_success_readBack (env : Nat → FillAttemptEnv) (text : String) :
    ∀ r a, (robustFillGo env text r a).1 = true →
      (env ((robustFillGo env text r a).2.1 - 1)).readBack = text := by
  intro r
  induction r with
  | zero => intro a h; simp [robustFillGo] at h
  | succ r ih =>
    intro a h
    simp only [robustFillGo] at h ⊢
    by_cases hok : (fillAttemptOnce (env a) text).1 = true
    · rw [if_pos hok] at h ⊢
      simpa using fillAttemptOnce_readBack hok
    · rw [if_neg hok] at h ⊢
      by_cases hc : 0 < r ∧ (env a).pageAvailable = true
      · rw [if_pos hc] at h ⊢
        exact ih (a + 1) h
      · rw [if_neg hc] at h
        simp at h

/-- Click attempts interact at most through the primary click. -/
lemma clickAttemptOnce_events (e : ClickAttemptEnv) :
    (clickAttemptOnce e).2 = [] ∨
      (clickAttemptOnce e).2 = [InteractionEvent.primaryClick] := by
  obtain ⟨p, w, f, v, en, cr⟩ := e
  cases p <;> cases w <;> cases f <;> cases v <;> cases en <;> cases cr <;>
    simp [clickAttemptOnce]

/-- The click retry loop never performs a JavaScript click. -/
lemma robustClickGo_no_jsClick (env : Nat → ClickAttemptEnv) :
    ∀ r a, InteractionEvent.jsClick ∉ (robustClickGo env r a).2.2 := by
  intro r
  induction r with
  | zero => intro a; simp [robustClickGo]
  | succ r ih =>
    intro a
    simp only [robustClickGo]
    rcases clickAttemptOnce_events (env a) with h | h <;>
    · split
      · simp [h]
      · split
        · simp [h, ih (a + 1)]
        · simp [h]

/-- Soundness of the stability monitor loop: a `.ok k` exit implies the
content read at iteration `k` exceeds 100 characters and was observed
unchanged at every poll of the preceding 10000 ms.  The invariant carried
through the loop: `lastChange` is the poll time of some earlier iteration
`j`, and every poll in `[j, i)` read `lastContent`. -/
lemma monitorGo_sound (content : Nat → String) (t : Nat) :
    ∀ fuel i lc lt j, lt = 5000 * j → j ≤ i →
      (∀ m, j ≤ m → m < i → content m = lc) →
      ∀ k, monitorGo content t fuel i lc lt = Except.ok k →
        i ≤ k ∧ 100 < (content k).length ∧
          ∃ q, 5000 * q + 10000 ≤ 5000 * k ∧ q ≤ k ∧
            ∀ m, q ≤ m → m ≤ k → content m = content k := by
  intro fuel
  induction fuel with
  | zero =>
    intro i lc lt j hj hji hw k hk
    simp [monitorGo] at hk
  | succ fuel ih =>
    intro i lc lt j hj hji hw k hk
    rw [monitorGo] at hk
    by_cases htime : 5000 * i < t
    · rw [if_pos htime] at hk
      by_cases hfire : 10000 ≤ 5000 * i - (if content i ≠ lc then 5000 * i else lt) ∧
          100 < (content i).length
      · rw [if_pos hfire] at hk
        obtain rfl : i = k := Except.ok.inj hk
        refine ⟨le_refl _, hfire.2, ?_⟩
        by_cases hch : content i ≠ lc
        · rw [if_pos hch] at hfire
          omega
        · push_neg at hch
          rw [if_neg (by simp [hch])] at hfire
          refine ⟨j, by omega, hji, ?_⟩
          intro m hm1 hm2
          rcases Nat.lt_or_ge m i with hmlt | hmge
          · rw [hw m hm1 hmlt, hch]
          · have : m = i := by omega
            rw [this]
      · rw [if_neg hfire] at hk
        by_cases hch : content i ≠ lc
        · rw [if_pos hch] at hk
          have hrec := ih (i + 1) (content i) (5000 * i) i rfl (by omega)
            (by
              intro m hm1 hm2
              have : m = i := by omega
              rw [this]) k hk
          exact ⟨by omega, hrec.2.1, hrec.2.2⟩
        · rw [if_neg hch] at hk
          push_neg at hch
          have hrec := ih (i + 1) (content i) lt j hj (by omega)
            (by
              intro m hm1 hm2
              rcases Nat.lt_or_ge m i with hmlt | hmge
              · rw [hw m hm1 hmlt, hch]
              · have : m = i := by omega
                rw [this]) k hk
          exact ⟨by omega, hrec.2.1, hrec.2.2⟩
    · rw [if_neg htime] at hk
      exact absurd hk (by simp)

/-- The monitor loop's only error is the timeout, carrying the configured
timeout in seconds. -/
lemma monitorGo_error_val (content : Nat → String) (t : Nat) :
    ∀ fuel i lc lt s, monitorGo content t fuel i lc lt = Except.error s →
      s = t / 1000 := by
  intro fuel
  induction fuel with
  | zero =>
    intro i lc lt s hk
    rw [monitorGo] at hk
    exact (Except.error.inj hk).symm
  | succ fuel ih =>
    intro i lc lt s hk
    rw [monitorGo] at hk
    by_cases htime : 5000 * i < t
    · rw [if_pos htime] at hk
      by_cases hfire : 10000 ≤ 5000 * i - (if content i ≠ lc then 5000 * i else lt) ∧
          100 < (content i).length
      · rw [if_pos hfire] at hk
        exact absurd hk (by simp)
      · rw [if_neg hfire] at hk
        exact ih _ _ _ _ hk
    · rw [if_neg htime] at hk
      exact (Except.error.inj hk).symm

/-- The empty pattern occurs in every character list. -/
lemma containsList_nil_left : ∀ l : List Char, containsList [] l = true := by
  intro l
  cases l with
  | nil => rfl
  | cons c cs => simp [containsList, startsList]

/-- `re.search` finds nothing when the literal `github.com` does not occur in
the input. -/
lemma extractFrom_none : ∀ l : List Char, containsList ghChars l = false →
    extractFrom l = none := by
  intro l
  induction l with
  | nil => intro _; rfl
  | cons c cs ih =>
    intro h
    rw [containsList, Bool.or_eq_false_iff] at h
    have ht : tryMatchAt (c :: cs) = none := by
      rw [tryMatchAt, if_neg (by simp [h.1])]
    rw [extractFrom, ht]
    exact ih h.2

/-- With benign closes, `_cleanup_browser` clears every handle and the ready
flag, from any starting state. -/
lemma cleanupBrowser_allOk (s : BrowserState) :
    (cleanupBrowser s allCloseOk).1 = ⟨false, false, false, false⟩ := by
  obtain ⟨c, b, p, r⟩ := s
  cases c <;> cases b <;> cases p <;> cases r <;> rfl

/-- `_cleanup_browser` clears the ready flag before anything else, so the
flag is down afterwards no matter which close call raised. -/
lemma cleanupBrowser_ready (s : BrowserState) (e : CleanupEnv) :
    (cleanupBrowser s e).1.ready = false := by
  obtain ⟨c, b, p, r⟩ := s
  obtain ⟨p1, b1, c1⟩ := e
  cases c <;> cases b <;> cases p <;> cases r <;> cases p1 <;> cases b1 <;> cases c1 <;> rfl

/-! ## Claim theorems -/

/-- Claim C1: for every retry count `n ≥ 1` (the policy's `max_attempts`,
default `RETRY_COUNT = 3`), a click or a fill against a selector whose
element is present but never both visible and enabled returns `False` after
exactly `n` attempts, with one `RETRY_DELAY` wait between consecutive failed
attempts (`n - 1` waits in total) and no further attempt after the `n`-th. -/
theorem click_fill_exhaust_attempts
    (n : Nat) (envC : Nat → ClickAttemptEnv) (envF : Nat → FillAttemptEnv) (text : String)
    (hn : 1 ≤ n)
    (hC : ∀ i, clickNeverActionable (envC i))
    (hF : ∀ i, fillNeverActionable (envF i)) :
    robustClickElement envC (some n) =
      (false, n, List.replicate (n - 1) InteractionEvent.retryDelay) ∧
    robustFillInput envF text (some n) =
      (false, n, List.replicate (n - 1) InteractionEvent.retryDelay) ∧
    robustClickElement envC none =
      (false, WebAutomationConfig.RETRY_COUNT,
        List.replicate (WebAutomationConfig.RETRY_COUNT - 1) InteractionEvent.retryDelay) := by
  obtain ⟨r, rfl⟩ : ∃ r, n = r + 1 := ⟨n - 1, by omega⟩
  refine ⟨?_, ?_, ?_⟩
  · rw [robustClickElement, pyOrDefault_some hn]
    simpa using robustClickGo_neverActionable envC hC r 0
  · rw [robustFillInput, pyOrDefault_some hn]
    simpa using robustFillGo_neverActionable envF text hF r 0
  · rw [robustClickElement]
    simpa using robustClickGo_neverActionable envC hC 2 0

/-- Witness for C1 at `n = 3` (the default policy), against an element that
is always visible but never enabled. -/
theorem click_fill_exhaust_attempts_witness :
    robustClickElement (fun _ => (⟨true, true, true, true, false, false⟩ : ClickAttemptEnv))
        (some 3) =
      (false, 3, List.replicate 2 InteractionEvent.retryDelay) ∧
    robustFillInput (fun _ => (⟨true, true, true, true, false, false, ""⟩ : FillAttemptEnv))
        "hello" (some 3) =
      (false, 3, List.replicate 2 InteractionEvent.retryDelay) ∧
    robustClickElement (fun _ => (⟨true, true, true, true, false, false⟩ : ClickAttemptEnv))
        none =
      (false, WebAutomationConfig.RETRY_COUNT,
        List.replicate (WebAutomationConfig.RETRY_COUNT - 1) InteractionEvent.retryDelay) :=
  click_fill_exhaust_attempts 3 _ _ "hello" (by decide)
    (fun _ => ⟨rfl, rfl, rfl, rfl⟩) (fun _ => ⟨rfl, rfl, rfl, rfl⟩)

/-- Claim C5: after a fill, the value is read back and compared to the
intended text.  (1) A fully actionable first attempt with a matching
read-back returns success after exactly one attempt; (2) whenever the loop
returns success, the succeeding attempt's read-back equals the intended text
(a mismatch is never accepted as success); (3) a mismatched first attempt is
retried: with at least two attempts allowed, a second attempt runs after a
retry delay. -/
theorem fill_readback_verification (text : String) :
    (∀ (env : Nat → FillAttemptEnv) (n : Nat), 1 ≤ n → fillAttemptGood (env 0) text →
      robustFillInput env text (some n) = (true, 1, [InteractionEvent.fillText])) ∧
    (∀ (env : Nat → FillAttemptEnv) (r a : Nat),
      (robustFillGo env text r a).1 = true →
      (env ((robustFillGo env text r a).2.1 - 1)).readBack = text) ∧
    (∀ (env : Nat → FillAttemptEnv) (n : Nat), 2 ≤ n → fillAttemptMismatch (env 0) text →
      2 ≤ (robustFillInput env text (some n)).2.1 ∧
      InteractionEvent.retryDelay ∈ (robustFillInput env text (some n)).2.2) := by
  refine ⟨?_, ?_, ?_⟩
  · intro env n hn hgood
    rw [robustFillInput, pyOrDefault_some hn]
    obtain ⟨r, rfl⟩ : ∃ r, n = r + 1 := ⟨n - 1, by omega⟩
    rw [robustFillGo, if_pos (by rw [fillAttemptOnce_good hgood])]
    rw [fillAttemptOnce_good hgood]
  · intro env r a h
    exact robustFillGo_success_readBack env text r a h
  · intro env n hn hmis
    rw [robustFillInput, pyOrDefault_some (by omega)]
    obtain ⟨r, rfl⟩ : ∃ r, n = r + 1 := ⟨n - 1, by omega⟩
    have hr : 1 ≤ r := by omega
    rw [robustFillGo, if_neg (by rw [fillAttemptOnce_mismatch hmis]; simp),
      if_pos ⟨by omega, hmis.1⟩]
    constructor
    · have h2 := robustFillGo_used_lower env text r 1 hr
      simpa using h2
    · rw [fillAttemptOnce_mismatch hmis]
      simp

/-- Witness for C5: a matching first read-back succeeds in one attempt; a
mismatched first read-back forces a second attempt. -/
theorem fill_readback_verification_witness :
    robustFillInput (fun _ => (⟨true, true, true, true, true, false, "abc"⟩ : FillAttemptEnv))
        "abc" (some 3) = (true, 1, [InteractionEvent.fillText]) ∧
    2 ≤ (robustFillInput (fun _ => (⟨true, true, true, true, true, false, "xyz"⟩ : FillAttemptEnv))
        "abc" (some 3)).2.1 :=
  ⟨(fill_readback_verification "abc").1 _ 3 (by decide) ⟨rfl, rfl, rfl, rfl, rfl, rfl, rfl⟩,
   ((fill_readback_verification "abc").2.2 _ 3 (by decide)
      ⟨rfl, rfl, rfl, rfl, rfl, rfl, by decide⟩).1⟩

/-- Counterexample to claim C7 as stated: in `_robust_click_element`, an
attempt whose primary `element.click()` raises is simply given up (after the
inter-attempt delay) — no JavaScript fallback click is ever issued on any of
the three attempts, and the operation returns `Failed`. -/
theorem robust_click_no_js_fallback_cex :
    robustClickElement (fun _ => (⟨true, true, true, true, true, true⟩ : ClickAttemptEnv))
        (some 3) =
      (false, 3,
        [InteractionEvent.primaryClick, InteractionEvent.retryDelay,
         InteractionEvent.primaryClick, InteractionEvent.retryDelay,
         InteractionEvent.primaryClick]) ∧
    InteractionEvent.jsClick ∉
      [InteractionEvent.primaryClick, InteractionEvent.retryDelay,
       InteractionEvent.primaryClick, InteractionEvent.retryDelay,
       InteractionEvent.primaryClick] := by
  constructor
  · rfl
  · decide

/-- Claim C7, amended: the generic retry click (`_robust_click_element`)
never performs a JavaScript fallback click on any environment; only
`_scroll_and_click` (used for the repository and final-create buttons during
environment creation) falls back to a programmatic click when the primary
click on an actionable element raises. -/
theorem js_fallback_only_in_scroll_click :
    (∀ (env : Nat → ClickAttemptEnv) (r a : Nat),
        InteractionEvent.jsClick ∉ (robustClickGo env r a).2.2) ∧
    (∀ e : ScrollClickEnv, e.visible = true → e.enabled = true → e.clickRaises = true →
        scrollAndClick e = [InteractionEvent.primaryClick, InteractionEvent.jsClick]) := by
  constructor
  · exact fun env r a => robustClickGo_no_jsClick env r a
  · intro e h1 h2 h3
    simp [scrollAndClick, h1, h2, h3]

/-- Witness for the amended C7: a concrete actionable element whose primary
click raises gets the JavaScript fallback from `_scroll_and_click`. -/
theorem js_fallback_only_in_scroll_click_witness :
    scrollAndClick ⟨true, true, true⟩ =
      [InteractionEvent.primaryClick, InteractionEvent.jsClick] :=
  js_fallback_only_in_scroll_click.2 ⟨true, true, true⟩ rfl rfl rfl

/-- Counterexample to claim C2 as stated: when the stop button appears and
never transitions to hidden within the 1200000 ms long timeout, the codex
`_wait_for_completion` catches the timeout and returns normally
(`proceededAfterTimeout`) — no conclusive `CompletionTimeout` error is
raised — and a task run over that indicator behavior still finishes with
`success = true`. -/
theorem indicator_timeout_not_raised_cex :
    codexWaitForCompletion ⟨true, false⟩ = CompletionOutcome.proceededAfterTimeout ∧
    (codexExecutePrompt ⟨true, true, true, true⟩
        ⟨true, true, true, ⟨true, false⟩, none, none⟩).1.success = true := by
  constructor
  · rfl
  · rfl

/-- Claim C2, amended: the fast path and the hide-transition behave as
claimed — no indicator within the short window means completion is declared
immediately, and an indicator that appears and later hides means completion
at that transition.  But when the indicator never disappears before the long
timeout, the codex monitor swallows the timeout exception and proceeds as if
completed; only the generic web completion path can end in a conclusive
timeout, and it does so exactly when its content-stability fallback times
out (the loading-indicator wait's own timeout merely falls through to that
fallback). -/
theorem indicator_completion_behavior :
    (∀ e : IndicatorEnv, e.appearsWithinShort = false →
        codexWaitForCompletion e = CompletionOutcome.immediateNoIndicator) ∧
    (∀ e : IndicatorEnv, e.appearsWithinShort = true → e.hidesWithinLong = true →
        codexWaitForCompletion e = CompletionOutcome.completedAtHide) ∧
    (∀ e : IndicatorEnv, e.appearsWithinShort = true → e.hidesWithinLong = false →
        codexWaitForCompletion e = CompletionOutcome.proceededAfterTimeout) ∧
    (∀ w : WebCompletionEnv, w.hasLoadingSelector = true →
        w.loadingHiddenWithinTimeout = true → waitForWebCompletion w = Except.ok ()) ∧
    (∀ (w : WebCompletionEnv) (s : Nat), w.loadingHiddenWithinTimeout = false →
        monitorOutputChanges w.content w.timeoutMs = Except.error s →
        waitForWebCompletion w = Except.error s) ∧
    (∀ (w : WebCompletionEnv) (k : Nat), w.loadingHiddenWithinTimeout = false →
        monitorOutputChanges w.content w.timeoutMs = Except.ok k →
        waitForWebCompletion w = Except.ok ()) := by
  refine ⟨?_, ?_, ?_, ?_, ?_, ?_⟩
  · intro e h
    simp [codexWaitForCompletion, codexWaitForCompletionInner, h]
  · intro e h1 h2
    simp [codexWaitForCompletion, codexWaitForCompletionInner, h1, h2]
  · intro e h1 h2
    simp [codexWaitForCompletion, codexWaitForCompletionInner, h1, h2]
  · intro w h1 h2
    simp [waitForWebCompletion, h1, h2]
  · intro w s h1 h2
    rw [waitForWebCompletion, if_neg (by simp [h1]), h2]
  · intro w k h1 h2
    rw [waitForWebCompletion, if_neg (by simp [h1]), h2]

/-- Witness for the amended C2: concrete indicator behaviors for the fast
path, the hide transition, and the swallowed timeout; and a concrete web
completion whose fallback monitor times out, propagated as the conclusive
error. -/
theorem indicator_completion_behavior_witness :
    codexWaitForCompletion ⟨false, false⟩ = CompletionOutcome.immediateNoIndicator ∧
    codexWaitForCompletion ⟨true, true⟩ = CompletionOutcome.completedAtHide ∧
    waitForWebCompletion ⟨true, false, fun _ => "", 20000⟩ = Except.error 20 :=
  ⟨indicator_completion_behavior.1 ⟨false, false⟩ rfl,
   indicator_completion_behavior.2.1 ⟨true, true⟩ rfl rfl,
   indicator_completion_behavior.2.2.2.2.1 ⟨true, false, fun _ => "", 20000⟩ 20 rfl rfl⟩

/-- Claim C4: the content-stability monitor declares completion only when the
polled content has been observed unchanged at every poll over at least the
10000 ms quiet period and its length strictly exceeds 100 characters (any
observed change moves the quiet-period clock to the current poll); when no
poll ever satisfies both conditions before the overall timeout, the loop
exits with the timeout error carrying the timeout in seconds, and
`_wait_for_web_completion` re-raises exactly that error (fatal), while a
normal monitor exit is completion. -/
theorem content_stability_sound_and_fatal :
    (∀ (content : Nat → String) (t k : Nat),
        monitorOutputChanges content t = Except.ok k →
        100 < (content k).length ∧
          ∃ q, 5000 * q + 10000 ≤ 5000 * k ∧ q ≤ k ∧
            ∀ m, q ≤ m → m ≤ k → content m = content k) ∧
    (∀ (content : Nat → String) (t : Nat),
        (∀ k, monitorOutputChanges content t ≠ Except.ok k) →
        monitorOutputChanges content t = Except.error (t / 1000)) ∧
    (∀ (w : WebCompletionEnv) (s : Nat), w.hasLoadingSelector = false →
        monitorOutputChanges w.content w.timeoutMs = Except.error s →
        waitForWebCompletion w = Except.error s) := by
  refine ⟨?_, ?_, ?_⟩
  · intro content t k hk
    have h := monitorGo_sound content t (t / 5000 + 1) 0 "" 0 0 rfl (le_refl 0)
      (by intro m h1 h2; omega) k hk
    exact ⟨h.2.1, h.2.2⟩
  · intro content t h
    cases hm : monitorOutputChanges content t with
    | ok k => exact absurd hm (h k)
    | error s =>
      rw [monitorGo_error_val content t (t / 5000 + 1) 0 "" 0 s hm]
  · intro w s h1 h2
    rw [waitForWebCompletion, if_neg (by simp [h1]), h2]

/-- Witness for C4: constant 101-character content completes at the third
poll (10 s of observed stability), and the soundness conclusion holds
there. -/
theorem content_stability_sound_and_fatal_witness :
    100 < (stableContent101 2).length ∧
      ∃ q, 5000 * q + 10000 ≤ 5000 * 2 ∧ q ≤ 2 ∧
        ∀ m, q ≤ m → m ≤ 2 → stableContent101 m = stableContent101 2 :=
  content_stability_sound_and_fatal.1 stableContent101 60000 2 rfl

/-- Counterexample to claim C3 as stated: a non-GitHub URL does yield the
empty name, but the empty name does not make the workspace selector fail —
the formatted row selector's `has-text` filter with an empty needle matches
any row, so against an environments table containing one unrelated row the
selector clicks it and reports success. -/
theorem repo_name_empty_selector_matches_cex :
    extractRepoName "https://gitlab.com/acme/widget" = "" ∧
    findAndSelectExistingEnvironment (extractRepoName "https://gitlab.com/acme/widget")
        ["unrelated/row"] ⟨true, true⟩ = true := by
  constructor
  · rfl
  · rfl

/-- Claim C3, amended: name extraction behaves as claimed —
`https://github.com/acme/widget.git` and `git@github.com:acme/widget` map to
`acme/widget`, trailing `.git` and trailing slashes are tolerated in both
URL shapes, and any URL not containing `github.com` yields the empty name.
But an empty name does not cause `_find_and_select_existing_environment` to
report failure: its `has-text` row filter with an empty needle matches every
row, so whenever any environment rows are listed it selects the first
(unrelated) one and reports success; it reports failure only when the table
has no rows (or a click fails). -/
theorem repo_name_extraction_behavior :
    extractRepoName "https://github.com/acme/widget.git" = "acme/widget" ∧
    extractRepoName "git@github.com:acme/widget" = "acme/widget" ∧
    extractRepoName "https://github.com/acme/widget/" = "acme/widget" ∧
    extractRepoName "git@github.com:acme/widget.git/" = "acme/widget" ∧
    (∀ url : String, containsList ghChars url.toList = false → extractRepoName url = "") ∧
    (∀ (rows : List String) (e : SelectEnv), rows ≠ [] →
        e.clickRowOk = true → e.clickUseThisOk = true →
        findAndSelectExistingEnvironment "" rows e = true) ∧
    (∀ e : SelectEnv, findAndSelectExistingEnvironment "" [] e = false) := by
  refine ⟨rfl, rfl, rfl, rfl, ?_, ?_, ?_⟩
  · intro url h
    rw [extractRepoName]
    by_cases hu : url = ""
    · rw [if_pos hu]
    · rw [if_neg hu, extractFrom_none url.toList h]
  · intro rows e hrows h1 h2
    cases rows with
    | nil => exact absurd rfl hrows
    | cons row rest =>
      rw [findAndSelectExistingEnvironment,
        if_pos (by simp [hasTextMatch, containsList_nil_left]), if_pos h1]
      exact h2
  · intro e
    rfl

/-- Witness for the amended C3: a non-GitHub URL yields the empty name, a
one-row environments table makes the empty-name selector succeed, and an
empty table makes it fail. -/
theorem repo_name_extraction_behavior_witness :
    extractRepoName "https://bitbucket.org/acme/widget" = "" ∧
    findAndSelectExistingEnvironment "" ["octocat/hello-world"] ⟨true, true⟩ = true ∧
    findAndSelectExistingEnvironment "" [] ⟨true, true⟩ = false :=
  ⟨repo_name_extraction_behavior.2.2.2.2.1 "https://bitbucket.org/acme/widget" (by decide),
   repo_name_extraction_behavior.2.2.2.2.2.1 ["octocat/hello-world"] ⟨true, true⟩
     (by simp) rfl rfl,
   repo_name_extraction_behavior.2.2.2.2.2.2 ⟨true, true⟩⟩

/-- Counterexample to claim C6 as stated: an `open_coding_interface` run in
which creation succeeds but navigation fails returns failure with the page,
browser, and client handles all still live — nothing is closed on this exit
path. -/
theorem open_failure_leaks_browser_cex :
    (openCodingInterface ⟨false, false, false, false⟩ ⟨true, false, true⟩ allCloseOk).1
        = false ∧
    (openCodingInterface ⟨false, false, false, false⟩ ⟨true, false, true⟩ allCloseOk).2.page
        = true ∧
    (openCodingInterface ⟨false, false, false, false⟩ ⟨true, false, true⟩ allCloseOk).2.browser
        = true ∧
    (openCodingInterface ⟨false, false, false, false⟩ ⟨true, false, true⟩ allCloseOk).2.client
        = true := by
  refine ⟨rfl, rfl, rfl, rfl⟩

/-- Claim C6, amended: the browser resource is released on the exception
path of `open_coding_interface` (the `except` runs `_cleanup_browser` before
returning failure) and on every `close_coding_interface` (which always
reports success and, when the closes themselves succeed, clears the page,
browser, and client handles and the ready flag).  But the
navigation-failure and setup-failure paths of `open_coding_interface`
return failure without any teardown: all three handles stay live and only
the ready flag is left as it was. -/
theorem browser_cleanup_paths :
    (∀ (s : BrowserState) (e : OpenEnv), e.createOk = false →
        openCodingInterface s e allCloseOk = (false, ⟨false, false, false, false⟩)) ∧
    (∀ s : BrowserState,
        (closeCodingInterface s allCloseOk).1 = true ∧
        (closeCodingInterface s allCloseOk).2.1 = ⟨false, false, false, false⟩) ∧
    (∀ (s : BrowserState) (e : OpenEnv) (ce : CleanupEnv),
        e.createOk = true → e.navOk = false →
        openCodingInterface s e ce = (false, ⟨true, true, true, s.ready⟩)) ∧
    (∀ (s : BrowserState) (e : OpenEnv) (ce : CleanupEnv),
        e.createOk = true → e.navOk = true → e.setupOk = false →
        openCodingInterface s e ce = (false, ⟨true, true, true, s.ready⟩)) := by
  refine ⟨?_, ?_, ?_, ?_⟩
  · intro s e h
    rw [openCodingInterface, if_neg (by simp [h])]
    rw [cleanupBrowser_allOk s]
  · intro s
    exact ⟨rfl, cleanupBrowser_allOk s⟩
  · intro s e ce h1 h2
    rw [openCodingInterface, if_pos h1, if_neg (by simp [h2])]
  · intro s e ce h1 h2 h3
    rw [openCodingInterface, if_pos h1, if_pos h2, if_neg (by simp [h3])]

/-- Witness for the amended C6: from a fully live session, an open that
raises during creation returns failure with everything cleared, and a close
clears everything while reporting success. -/
theorem browser_cleanup_paths_witness :
    openCodingInterface ⟨true, true, true, true⟩ ⟨false, true, true⟩ allCloseOk
        = (false, ⟨false, false, false, false⟩) ∧
    (closeCodingInterface ⟨true, true, true, true⟩ allCloseOk).2.1
        = ⟨false, false, false, false⟩ :=
  ⟨browser_cleanup_paths.1 ⟨true, true, true, true⟩ ⟨false, true, true⟩ rfl,
   (browser_cleanup_paths.2.1 ⟨true, true, true, true⟩).2⟩

/-- Counterexample to claim C8 as stated: after an open whose setup
(authentication / workspace selection) reported failure, the session is not
ready, yet the codex `execute_prompt` — which never checks the ready flag —
fills the prompt field and clicks the Code button (a submission), and even
returns `success = true`. -/
theorem codex_submits_without_setup_cex :
    (openCodingInterface ⟨false, false, false, false⟩ ⟨true, true, false⟩ allCloseOk).2.ready
        = false ∧
    (codexExecutePrompt
        (openCodingInterface ⟨false, false, false, false⟩ ⟨true, true, false⟩ allCloseOk).2
        ⟨true, true, true, ⟨true, true⟩, none, none⟩).2
      = [InteractionEvent.fillText, InteractionEvent.primaryClick] ∧
    (codexExecutePrompt
        (openCodingInterface ⟨false, false, false, false⟩ ⟨true, true, false⟩ allCloseOk).2
        ⟨true, true, true, ⟨true, true⟩, none, none⟩).1.success
      = true := by
  refine ⟨rfl, rfl, rfl⟩

/-- Claim C8, amended: the generic `WebAgent.execute_prompt` does enforce the
ordering — when the session is not ready it returns a failed response with an
error message and performs no page interaction at all, and a not-ready
session can become ready only through an open whose navigation and setup
(for the codex agent: authentication and environments handling) both
succeed.  The codex agent's overriding `execute_prompt` performs no such
check, so a prompt can be submitted after a failed setup when the page still
accepts input. -/
theorem ready_gating_web_agent :
    (∀ (s : BrowserState) (e : WebExecEnv), s.ready = false →
        (webExecutePrompt s e).1.success = false ∧
        (webExecutePrompt s e).1.errorMessage.isSome = true ∧
        (webExecutePrompt s e).2 = []) ∧
    (∀ (s : BrowserState) (e : OpenEnv) (ce : CleanupEnv), s.ready = false →
        (openCodingInterface s e ce).2.ready = true →
        e.navOk = true ∧ e.setupOk = true) ∧
    (∀ authOk envPageOk : Bool, codexSetupWebInterface authOk envPageOk = true →
        authOk = true ∧ envPageOk = true) := by
  refine ⟨?_, ?_, ?_⟩
  · intro s e h
    rw [webExecutePrompt, if_neg (by simp [h])]
    exact ⟨rfl, rfl, rfl⟩
  · intro s e ce hs hr
    rcases e with ⟨co, no, so⟩
    cases co <;> cases no <;> cases so <;>
      simp_all [openCodingInterface, cleanupBrowser_ready]
  · intro authOk envPageOk h
    rw [codexSetupWebInterface] at h
    simpa using h

/-- Witness for the amended C8: a not-ready session with a live page gets a
failed response and no interaction from the generic `execute_prompt`. -/
theorem ready_gating_web_agent_witness :
    (webExecutePrompt ⟨true, true, true, false⟩
        ⟨true, true, ⟨true, true, fun _ => "", 20000⟩, "out"⟩).1.success = false ∧
    (webExecutePrompt ⟨true, true, true, false⟩
        ⟨true, true, ⟨true, true, fun _ => "", 20000⟩, "out"⟩).2 = [] :=
  ⟨(ready_gating_web_agent.1 ⟨true, true, true, false⟩
      ⟨true, true, ⟨true, true, fun _ => "", 20000⟩, "out"⟩ rfl).1,
   (ready_gating_web_agent.1 ⟨true, true, true, false⟩
      ⟨true, true, ⟨true, true, fun _ => "", 20000⟩, "out"⟩ rfl).2.2⟩

/-- Claim C9: when the submission-through-completion chain finishes without a
conclusive error (prompt filled, Code button clicked, task opened — the
completion wait and the captcha/output/PR sub-steps cannot raise, they
degrade to `None`), the codex result has `success = true` regardless of
whether output text or a PR link were captured, and the response parts
record exactly which of the two were captured: the output block is present
iff output was captured, the PR line is present iff a PR link was captured,
and nothing else is emitted. -/
theorem best_effort_result_composition :
    ∀ (s : BrowserState) (e : CodexExecEnv),
      s.page = true → e.fillOk = true → e.clickCodeOk = true → e.taskFound = true →
      (codexExecutePrompt s e).1.success = true ∧
      (codexExecutePrompt s e).1.content = codexFinalContent e.output e.pr ∧
      (truthy e.output = true → "AGENT OUTPUT:" ∈ codexResponseParts e.output e.pr) ∧
      (truthy e.output = false →
        (codexResponseParts e.output e.pr).length = if truthy e.pr = true then 1 else 0) ∧
      (truthy e.pr = true →
        ("PR created: " ++ e.pr.getD "") ∈ codexResponseParts e.output e.pr) ∧
      (truthy e.pr = false →
        (codexResponseParts e.output e.pr).length = if truthy e.output = true then 4 else 0) := by
  intro s e hp hf hc ht
  rw [codexExecutePrompt, if_pos (by simp [hp, hf]), if_pos hc, if_pos ht]
  refine ⟨rfl, rfl, ?_, ?_, ?_, ?_⟩
  · intro ho
    cases hpr : truthy e.pr <;> simp [codexResponseParts, ho, hpr]
  · intro ho
    cases hpr : truthy e.pr <;> simp [codexResponseParts, ho, hpr]
  · intro hpr
    cases ho : truthy e.output <;> simp [codexResponseParts, ho, hpr]
  · intro hpr
    cases ho : truthy e.output <;> simp [codexResponseParts, ho, hpr]

/-- Witness for C9: a ready page, a chain that finishes, a captured PR link
and no captured output. -/
theorem best_effort_result_composition_witness :
    (codexExecutePrompt ⟨true, true, true, true⟩
        ⟨true, true, true, ⟨true, true⟩, none,
          some "https://github.com/acme/widget/pull/1"⟩).1.success = true ∧
    ("PR created: " ++ (some "https://github.com/acme/widget/pull/1").getD "") ∈
      codexResponseParts none (some "https://github.com/acme/widget/pull/1") :=
  ⟨(best_effort_result_composition ⟨true, true, true, true⟩
      ⟨true, true, true, ⟨true, true⟩, none, some "https://github.com/acme/widget/pull/1"⟩
      rfl rfl rfl rfl).1,
   (best_effort_result_composition ⟨true, true, true, true⟩
      ⟨true, true, true, ⟨true, true⟩, none, some "https://github.com/acme/widget/pull/1"⟩
      rfl rfl rfl rfl).2.2.2.2.1 (by decide)⟩

/-- Claim C10: closing the coding interface is idempotent.  A close whose
teardown completes (in particular any close from a state with no live
handles, such as after a previous completed close or when no browser was
ever opened) leaves the page, browser, and client handles cleared and the
ready flag down; a subsequent close — whatever its close calls would do —
returns success, issues no further teardown call, and leaves the state
unchanged, so close followed by close equals a single close. -/
theorem close_interface_idempotent :
    ∀ (s : BrowserState) (e2 : CleanupEnv),
      (closeCodingInterface s allCloseOk).1 = true ∧
      (closeCodingInterface s allCloseOk).2.1 = ⟨false, false, false, false⟩ ∧
      closeCodingInterface (closeCodingInterface s allCloseOk).2.1 e2
        = (true, (closeCodingInterface s allCloseOk).2.1, ([] : List CloseEvent)) := by
  intro s e2
  have h : (closeCodingInterface s allCloseOk).2.1 = ⟨false, false, false, false⟩ :=
    cleanupBrowser_allOk s
  refine ⟨rfl, h, ?_⟩
  rw [h]
  rfl

end SimulatedDev
